import Mathlib

/-
Verification of the forms_backend import/export transformation logic and
authorization gate, shallowly embedded from src/index.js.

The remote Google Forms service is modelled as an oracle record (`Remote`)
supplying the result of each awaited call; the handler is a pure function
from the oracle and the request body to an outcome carrying the HTTP result
and a trace of which remote calls were performed.
-/

namespace FormsBackend

/-! ## Source-side data model (the JSON accepted by POST /import-form) -/

/-- One option of a source choice question: `{value, goToSectionId}`.
`goToSectionId` may be absent (`none`). -/
structure SrcOption where
  value : String
  goToSectionId : Option String
deriving DecidableEq, Repr

/-- A source `choiceQuestion`: it may carry a `type` field (ignored by
the importing code) and its `options` field may be absent. -/
structure SrcChoiceQuestion where
  ctype : Option String
  options : Option (List SrcOption)
deriving DecidableEq, Repr

/-- A source `question`: its `choiceQuestion` field may be absent. -/
structure SrcQuestion where
  choiceQuestion : Option SrcChoiceQuestion
deriving DecidableEq, Repr

/-- A source `questionItem` wrapping a `question`. -/
structure SrcQuestionItem where
  question : SrcQuestion
deriving DecidableEq, Repr

/-- One entry of the input `items` array: `title` plus the two optional tag
fields `pageBreakItem` and `questionItem` tested for truthiness by the code
(`some` models a present, truthy field). -/
structure SrcItem where
  title : Option String
  pageBreakItem : Option Unit
  questionItem : Option SrcQuestionItem
deriving DecidableEq, Repr

/-- The `info` object of the request body; both fields are optional and
empty strings are JS-falsy. -/
structure SrcInfo where
  title : Option String
  documentTitle : Option String
deriving DecidableEq, Repr

/-- The parsed JSON request body: `info` may be absent/falsy, and `items`
is `some` exactly when it is an array (`Array.isArray`). -/
structure RawBody where
  info : Option SrcInfo
  items : Option (List SrcItem)
deriving DecidableEq, Repr

/-! ## Output-side data model (what is pushed into `requests`) -/

/-- One mapped option `{value, goToSectionId: pageBreakIds[option.goToSectionId]}`;
`none` models the JS `undefined` produced by a failed lookup. -/
structure OutOption where
  value : String
  goToSectionId : Option String
deriving DecidableEq, Repr

/-- The emitted `choiceQuestion` object: `{type, options}`. -/
structure OutChoiceQuestion where
  ctype : String
  options : List OutOption
deriving DecidableEq, Repr

/-- The payload of an emitted `createItem`: either a page-break item or a
choice-question item. -/
inductive OutItemKind where
  | pageBreak : OutItemKind
  | question : OutChoiceQuestion → OutItemKind
deriving DecidableEq, Repr

/-- One `createItem` mutation request: `{item: {title, ...}, location: {index}}`. -/
structure CreateItem where
  title : Option String
  kind : OutItemKind
  index : Nat
deriving DecidableEq, Repr

/-! ## The option mapping and the two passes over `items` -/

/-- JS object indexing `m[k]` on the `pageBreakIds` object: an absent key
yields `undefined` (`none`); a JS `undefined` key coerces to the string
key `"undefined"`. -/
def jsLookup (m : List (String × String)) (k : Option String) : Option String :=
  match k with
  | some s => (m.find? (fun p => p.1 == s)).map (fun p => p.2)
  | none => (m.find? (fun p => p.1 == "undefined")).map (fun p => p.2)

/-- The option mapping
`item.questionItem.question.choiceQuestion.options.map(...)`: dereferencing
a missing `choiceQuestion` or missing `options` throws (modelled as
`Except.error`). -/
def mapOptions (pageBreakIds : List (String × String)) (qi : SrcQuestionItem) :
    Except Unit (List OutOption) :=
  match qi.question.choiceQuestion with
  | none => .error ()
  | some cq =>
    match cq.options with
    | none => .error ()
    | some opts =>
      .ok (opts.map (fun o => ⟨o.value, jsLookup pageBreakIds o.goToSectionId⟩))

/-- First pass (`formJson.items.forEach`): for every item with a truthy
`pageBreakItem`, push a page-break `createItem` at index `requests.length`. -/
def pushPageBreaks : List SrcItem → List CreateItem → List CreateItem
  | [], requests => requests
  | item :: rest, requests =>
    match item.pageBreakItem with
    | some _ =>
      pushPageBreaks rest (requests ++ [⟨item.title, .pageBreak, requests.length⟩])
    | none => pushPageBreaks rest requests

/-- Second pass (`for (const item of formJson.items)`): for every item with
a truthy `questionItem`, map its options against `pageBreakIds` and push a
question `createItem` with `type: "RADIO"` at index `requests.length`; an
exception in the mapping aborts the whole pass. -/
def pushQuestions (pageBreakIds : List (String × String)) :
    List SrcItem → List CreateItem → Except Unit (List CreateItem)
  | [], requests => .ok requests
  | item :: rest, requests =>
    match item.questionItem with
    | none => pushQuestions pageBreakIds rest requests
    | some qi =>
      match mapOptions pageBreakIds qi with
      | .error e => .error e
      | .ok options =>
        pushQuestions pageBreakIds rest
          (requests ++ [⟨item.title, .question ⟨"RADIO", options⟩, requests.length⟩])

/-- The full construction of the `requests` array inside the import handler:
both passes run with `pageBreakIds` still the empty object `{}`. -/
def buildRequests (items : List SrcItem) : Except Unit (List CreateItem) :=
  pushQuestions [] items (pushPageBreaks items [])

/-! ## The import handler -/

/-- The truthiness default `v || d` for a string-valued JSON field: absent,
null, undefined and the empty string all fall back to `d`. -/
def jsStrOr (v : Option String) (d : String) : String :=
  match v with
  | some s => if s = "" then d else s
  | none => d

/-- Body of the `forms.create` call: `{info: {title, documentTitle}}` with
both fields defaulted to "Untitled Form" when falsy. -/
structure CreateBody where
  title : String
  documentTitle : String
deriving DecidableEq, Repr

/-- The `createRequestBody` computed from `formJson.info`. -/
def mkCreateBody (info : SrcInfo) : CreateBody :=
  ⟨jsStrOr info.title "Untitled Form", jsStrOr info.documentTitle "Untitled Form"⟩

/-- One item of the re-fetched form: the code reads `item.title`,
`item.itemId` and tests `item.pageBreakItem` for truthiness. -/
structure FetchedItem where
  title : String
  itemId : String
  isPageBreak : Bool
deriving DecidableEq, Repr

/-- Oracle for the three awaited remote calls of the import handler:
`forms.create` (returning the new formId), `forms.batchUpdate`, and the
re-fetch `forms.get`. `Except.error` models a thrown/rejected call. -/
structure Remote where
  createResult : Except Unit String
  batchUpdateResult : Except Unit Unit
  fetchResult : Except Unit (List FetchedItem)
deriving Repr

/-- An HTTP response: status code and body text. -/
structure HttpResult where
  status : Nat
  body : String
deriving DecidableEq, Repr

/-- Trace of the remote calls performed while serving one import request. -/
structure CallTrace where
  createCalled : Bool
  createBody : Option CreateBody
  batchUpdateCalled : Bool
  batchRequests : List CreateItem
  fetchCalled : Bool
deriving DecidableEq, Repr

/-- The empty trace: no remote call was performed. -/
def noCalls : CallTrace := ⟨false, none, false, [], false⟩

/-- JS object property assignment `m[k] = v` on a plain object: overwrite
the existing entry or append a new one. -/
def setKey : List (String × String) → String → String → List (String × String)
  | [], k, v => [(k, v)]
  | (a, b) :: rest, k, v =>
    if a = k then (a, v) :: rest else (a, b) :: setKey rest k v

/-- The post-mutation loop `response.data.items.forEach(...)` recording
`{title → itemId}` for every page-break item of the re-fetched form. -/
def collectPageBreakIds (fetched : List FetchedItem) : List (String × String) :=
  fetched.foldl (fun m it => if it.isPageBreak then setKey m it.title it.itemId else m) []

/-- Full outcome of one import request: the HTTP result, the remote-call
trace, and the final contents of `pageBreakIds`. -/
structure ImportOutcome where
  result : HttpResult
  trace : CallTrace
  pageBreakIds : List (String × String)
deriving DecidableEq, Repr

/-- The outcome of the structural-validation failure branch: a 400 response
and no remote call at all. -/
def invalidOutcome : ImportOutcome :=
  ⟨⟨400, "Invalid form JSON structure."⟩, noCalls, []⟩

/-- The import handler after validation has passed (src/index.js lines
106-185): create the shell form, build `requests` (an exception here lands
in the catch), batch-update only when `requests` is non-empty, re-fetch,
record the page-break ids, and answer with the viewer link; any remote
failure yields the generic 500. -/
def importValid (remote : Remote) (info : SrcInfo) (items : List SrcItem) : ImportOutcome :=
  let createRequestBody := mkCreateBody info
  match remote.createResult with
  | .error _ =>
    ⟨⟨500, "Error creating form"⟩, ⟨true, some createRequestBody, false, [], false⟩, []⟩
  | .ok formId =>
    match buildRequests items with
    | .error _ =>
      ⟨⟨500, "Error creating form"⟩, ⟨true, some createRequestBody, false, [], false⟩, []⟩
    | .ok requests =>
      match (if 0 < requests.length then remote.batchUpdateResult else .ok ()) with
      | .error _ =>
        ⟨⟨500, "Error creating form"⟩,
         ⟨true, some createRequestBody, decide (0 < requests.length),
          if 0 < requests.length then requests else [], false⟩, []⟩
      | .ok _ =>
        match remote.fetchResult with
        | .error _ =>
          ⟨⟨500, "Error creating form"⟩,
           ⟨true, some createRequestBody, decide (0 < requests.length),
            if 0 < requests.length then requests else [], true⟩, []⟩
        | .ok fetched =>
          ⟨⟨200, "https://docs.google.com/forms/d/" ++ formId ++ "/viewform"⟩,
           ⟨true, some createRequestBody, decide (0 < requests.length),
            if 0 < requests.length then requests else [], true⟩,
           collectPageBreakIds fetched⟩

/-- The POST /import-form handler body (after the authentication gate),
translated from src/index.js lines 98-186: the request fails with 400
unless the body is present, `info` is truthy and `items` is an array. -/
def importForm (remote : Remote) (body : Option RawBody) : ImportOutcome :=
  match body with
  | none => invalidOutcome
  | some formJson =>
    match formJson.info, formJson.items with
    | some info, some items => importValid remote info items
    | _, _ => invalidOutcome

/-! ## The authorization gate -/

/-- A stored OAuth2 credential; the gate only inspects `expiry_date`. -/
structure Credential where
  access_token : String
  refresh_token : String
  expiry_date : Int
deriving DecidableEq, Repr

/-- Outcome of the gate: call `next()` or redirect to /auth. -/
inductive GateOutcome where
  | proceed : GateOutcome
  | redirectAuth : GateOutcome
deriving DecidableEq, Repr

/-- Observable behaviour of one run of the gate: how many refresh calls
were attempted, the outcome, and the credential persisted by `saveToken`
(if any). -/
structure GateResult where
  refreshCalls : Nat
  outcome : GateOutcome
  savedToken : Option Credential
deriving DecidableEq, Repr

/-- The `ensureAuthenticated` middleware, translated from src/index.js
lines 34-56. `stored` is the persisted credential slot read by `loadToken`;
`now` is `Date.now()`; `refreshResult` is the outcome of the (at most one)
`refreshAccessToken` call. -/
def ensureAuthenticated (stored : Option Credential) (now : Int)
    (refreshResult : Except Unit Credential) : GateResult :=
  match stored with
  | none => ⟨0, .redirectAuth, none⟩
  | some token =>
    if token.expiry_date ≤ now then
      match refreshResult with
      | .error _ => ⟨1, .redirectAuth, none⟩
      | .ok newTokens => ⟨1, .proceed, some newTokens⟩
    else ⟨0, .proceed, none⟩

/-- A protected route (export-form or import-form): the gate runs first and
the handler is reached only on `proceed`; the boolean reports whether the
handler ran. A redirect is a 302 whose body records the target /auth. -/
def runProtected (stored : Option Credential) (now : Int)
    (refreshResult : Except Unit Credential) (handler : Unit → HttpResult) :
    HttpResult × Bool :=
  match (ensureAuthenticated stored now refreshResult).outcome with
  | .proceed => (handler (), true)
  | .redirectAuth => (⟨302, "/auth"⟩, false)

/-! ## Characterization of the two passes -/

/-- The list of page-break requests produced by the first pass over `items`
when the `requests` array already has length `i`. -/
def pbSpec : List SrcItem → Nat → List CreateItem
  | [], _ => []
  | item :: rest, i =>
    match item.pageBreakItem with
    | some _ => ⟨item.title, .pageBreak, i⟩ :: pbSpec rest (i + 1)
    | none => pbSpec rest i

/-- The list of question requests produced by the second pass over `items`
when the `requests` array already has length `i`. -/
def qSpec (pageBreakIds : List (String × String)) :
    List SrcItem → Nat → Except Unit (List CreateItem)
  | [], _ => .ok []
  | item :: rest, i =>
    match item.questionItem with
    | none => qSpec pageBreakIds rest i
    | some qi =>
      match mapOptions pageBreakIds qi with
      | .error e => .error e
      | .ok options =>
        match qSpec pageBreakIds rest (i + 1) with
        | .error e => .error e
        | .ok qs => .ok (⟨item.title, .question ⟨"RADIO", options⟩, i⟩ :: qs)

theorem pushPageBreaks_eq (l : List SrcItem) :
    ∀ requests, pushPageBreaks l requests = requests ++ pbSpec l requests.length := by
  induction l with
  | nil => intro requests; simp [pushPageBreaks, pbSpec]
  | cons item rest ih =>
    intro requests
    cases h : item.pageBreakItem with
    | none => simp [pushPageBreaks, pbSpec, h, ih]
    | some u =>
      simp only [pushPageBreaks, pbSpec, h]
      rw [ih]
      simp

theorem pushQuestions_eq (pageBreakIds : List (String × String)) (l : List SrcItem) :
    ∀ requests, pushQuestions pageBreakIds l requests =
      (qSpec pageBreakIds l requests.length).map (fun qs => requests ++ qs) := by
  induction l with
  | nil => intro requests; simp [pushQuestions, qSpec, Except.map]
  | cons item rest ih =>
    intro requests
    cases h : item.questionItem with
    | none => simp [pushQuestions, qSpec, h, ih]
    | some qi =>
      cases hm : mapOptions pageBreakIds qi with
      | error e => simp [pushQuestions, qSpec, h, hm, Except.map]
      | ok options =>
        simp only [pushQuestions, qSpec, h, hm]
        rw [ih]
        simp only [List.length_append, List.length_cons, List.length_nil, Nat.zero_add]
        cases hq : qSpec pageBreakIds rest (requests.length + 1) with
        | error e => simp [Except.map, hq]
        | ok qs => simp [Except.map, hq]

theorem buildRequests_eq (items : List SrcItem) :
    buildRequests items =
      (qSpec [] items (pbSpec items 0).length).map (fun qs => pbSpec items 0 ++ qs) := by
  unfold buildRequests
  rw [pushQuestions_eq, pushPageBreaks_eq]
  simp

theorem pbSpec_all_pageBreak (l : List SrcItem) :
    ∀ i, ∀ r ∈ pbSpec l i, r.kind = OutItemKind.pageBreak := by
  induction l with
  | nil => intro i r hr; simp [pbSpec] at hr
  | cons item rest ih =>
    intro i r hr
    cases h : item.pageBreakItem with
    | none =>
      simp only [pbSpec, h] at hr
      exact ih i r hr
    | some u =>
      simp only [pbSpec, h, List.mem_cons] at hr
      rcases hr with hr | hr
      · subst hr; rfl
      · exact ih (i + 1) r hr

theorem pbSpec_titles (l : List SrcItem) :
    ∀ i, (pbSpec l i).map (fun r => r.title) =
      (l.filter (fun it => it.pageBreakItem.isSome)).map (fun it => it.title) := by
  induction l with
  | nil => intro i; simp [pbSpec]
  | cons item rest ih =>
    intro i
    cases h : item.pageBreakItem with
    | none => simp [pbSpec, List.filter_cons, h, ih]
    | some u => simp [pbSpec, List.filter_cons, h, ih]

theorem pbSpec_indices (l : List SrcItem) :
    ∀ i, (pbSpec l i).map (fun r => r.index) = List.range' i (pbSpec l i).length := by
  induction l with
  | nil => intro i; simp [pbSpec]
  | cons item rest ih =>
    intro i
    cases h : item.pageBreakItem with
    | none => simp [pbSpec, h, ih]
    | some u => simp [pbSpec, h, ih, List.range'_succ]

theorem qSpec_ok_props (pageBreakIds : List (String × String)) (l : List SrcItem) :
    ∀ i qs, qSpec pageBreakIds l i = .ok qs →
      (∀ r ∈ qs, ∃ cq, r.kind = OutItemKind.question cq ∧ cq.ctype = "RADIO") ∧
      qs.map (fun r => r.title) =
        (l.filter (fun it => it.questionItem.isSome)).map (fun it => it.title) ∧
      qs.map (fun r => r.index) = List.range' i qs.length := by
  induction l with
  | nil =>
    intro i qs h
    simp only [qSpec] at h
    cases h
    simp
  | cons item rest ih =>
    intro i qs h
    cases hq : item.questionItem with
    | none =>
      simp only [qSpec, hq] at h
      have := ih i qs h
      simpa [List.filter_cons, hq] using this
    | some qi =>
      cases hm : mapOptions pageBreakIds qi with
      | error e => simp [qSpec, hq, hm] at h
      | ok options =>
        simp only [qSpec, hq, hm] at h
        cases hrec : qSpec pageBreakIds rest (i + 1) with
        | error e => rw [hrec] at h; cases h
        | ok qs0 =>
          rw [hrec] at h
          cases h
          obtain ⟨h1, h2, h3⟩ := ih (i + 1) qs0 hrec
          refine ⟨?_, ?_, ?_⟩
          · intro r hr
            rcases List.mem_cons.mp hr with hr | hr
            · exact ⟨⟨"RADIO", options⟩, by rw [hr], rfl⟩
            · exact h1 r hr
          · simp [List.filter_cons, hq, h2]
          · simp [h3, List.range'_succ]

theorem jsLookup_nil (k : Option String) : jsLookup [] k = none := by
  cases k <;> rfl

theorem qSpec_nil_goTo (l : List SrcItem) :
    ∀ i qs, qSpec [] l i = .ok qs →
      ∀ r ∈ qs, ∀ cq, r.kind = OutItemKind.question cq →
        ∀ o ∈ cq.options, o.goToSectionId = none := by
  induction l with
  | nil =>
    intro i qs h
    simp only [qSpec] at h
    cases h
    simp
  | cons item rest ih =>
    intro i qs h
    cases hq : item.questionItem with
    | none =>
      simp only [qSpec, hq] at h
      exact ih i qs h
    | some qi =>
      cases hm : mapOptions [] qi with
      | error e => simp [qSpec, hq, hm] at h
      | ok options =>
        have hopts : ∀ o ∈ options, o.goToSectionId = none := by
          cases hcq : qi.question.choiceQuestion with
          | none => simp [mapOptions, hcq] at hm
          | some cq0 =>
            cases ho : cq0.options with
            | none => simp [mapOptions, hcq, ho] at hm
            | some opts =>
              simp only [mapOptions, hcq, ho] at hm
              cases hm
              intro o hmem
              simp only [List.mem_map] at hmem
              obtain ⟨o0, _, rfl⟩ := hmem
              exact jsLookup_nil _
        simp only [qSpec, hq, hm] at h
        cases hrec : qSpec [] rest (i + 1) with
        | error e => rw [hrec] at h; cases h
        | ok qs0 =>
          rw [hrec] at h
          cases h
          intro r hr cq hk o ho
          rcases List.mem_cons.mp hr with hr | hr
          · subst hr
            simp only [OutItemKind.question.injEq] at hk
            rw [← hk] at ho
            exact hopts o ho
          · exact ih (i + 1) qs0 hrec r hr cq hk o ho

/-! ## Dropping items that are neither page breaks nor questions -/

/-- An input item contributes to the output iff it has a truthy
`pageBreakItem` or a truthy `questionItem`. -/
def keepItem (it : SrcItem) : Bool := it.pageBreakItem.isSome || it.questionItem.isSome

theorem pbSpec_filter (l : List SrcItem) :
    ∀ i, pbSpec (l.filter keepItem) i = pbSpec l i := by
  induction l with
  | nil => intro i; rfl
  | cons item rest ih =>
    intro i
    cases hp : item.pageBreakItem with
    | some u => simp [List.filter_cons, keepItem, hp, pbSpec, ih]
    | none =>
      cases hq : item.questionItem with
      | some qi => simp [List.filter_cons, keepItem, hp, hq, pbSpec, ih]
      | none => simp [List.filter_cons, keepItem, hp, hq, pbSpec, ih]

theorem qSpec_filter (pageBreakIds : List (String × String)) (l : List SrcItem) :
    ∀ i, qSpec pageBreakIds (l.filter keepItem) i = qSpec pageBreakIds l i := by
  induction l with
  | nil => intro i; rfl
  | cons item rest ih =>
    intro i
    cases hq : item.questionItem with
    | some qi =>
      have hk : keepItem item = true := by simp [keepItem, hq]
      simp only [List.filter_cons, hk, if_true, qSpec, hq]
      cases hm : mapOptions pageBreakIds qi with
      | error e => rfl
      | ok options => rw [ih]
    | none =>
      cases hp : item.pageBreakItem with
      | some u =>
        have hk : keepItem item = true := by simp [keepItem, hp]
        simp only [List.filter_cons, hk, if_true, qSpec, hq]
        exact ih i
      | none =>
        have hk : keepItem item = false := by simp [keepItem, hp, hq]
        simp only [List.filter_cons, hk, if_false, qSpec, hq]
        exact ih i

theorem buildRequests_filter (items : List SrcItem) :
    buildRequests (items.filter keepItem) = buildRequests items := by
  rw [buildRequests_eq, buildRequests_eq, pbSpec_filter, qSpec_filter]

/-- Concatenation of two contiguous index ranges. -/
theorem range'_app (m : Nat) : ∀ s n : Nat,
    List.range' s m ++ List.range' (s + m) n = List.range' s (m + n) := by
  induction m with
  | zero => intro s n; simp
  | succ m ih =>
    intro s n
    rw [List.range'_succ]
    rw [show m + 1 + n = (m + n) + 1 by omega, List.range'_succ, List.cons_append]
    rw [show s + (m + 1) = (s + 1) + m by omega, ih (s + 1) n]

/-- In every branch of the post-validation import, the create call happened
with body `mkCreateBody info`, and the response status is 200 or 500. -/
theorem importValid_trace (remote : Remote) (info : SrcInfo) (items : List SrcItem) :
    (importValid remote info items).trace.createCalled = true ∧
    (importValid remote info items).trace.createBody = some (mkCreateBody info) ∧
    ((importValid remote info items).result.status = 200 ∨
      (importValid remote info items).result.status = 500) := by
  unfold importValid
  cases remote.createResult with
  | error e => simp
  | ok formId =>
    cases buildRequests items with
    | error e => simp
    | ok requests =>
      cases hb : (if 0 < requests.length then remote.batchUpdateResult else Except.ok ()) with
      | error e => simp [hb]
      | ok u =>
        cases remote.fetchResult with
        | error e => simp [hb]
        | ok fetched => simp [hb]

/-! ## Concrete sample inputs used to exercise the theorems -/

/-- A page-break input item titled "Section A". -/
def samplePageBreak : SrcItem := ⟨some "Section A", some (), none⟩

/-- A choice-question input item with a non-RADIO source type and one option
pointing at "Section A". -/
def sampleQuestion : SrcItem :=
  ⟨some "Q1", none,
   some ⟨⟨some ⟨some "CHECKBOX", some [⟨"yes", some "Section A"⟩, ⟨"no", none⟩]⟩⟩⟩⟩

/-- An input item that is neither a page break nor a question. -/
def samplePlain : SrcItem := ⟨some "just text", none, none⟩

/-- An interleaved input sequence: question first, then page break, then an
unhandled item. -/
def sampleItems : List SrcItem := [sampleQuestion, samplePageBreak, samplePlain]

/-- The choice question emitted for `sampleQuestion`. -/
def sampleCQ : OutChoiceQuestion := ⟨"RADIO", [⟨"yes", none⟩, ⟨"no", none⟩]⟩

/-- The mutation requests the import builds from `sampleItems`. -/
def sampleRequests : List CreateItem :=
  [⟨some "Section A", .pageBreak, 0⟩, ⟨some "Q1", .question sampleCQ, 1⟩]

/-- A remote oracle on which every call succeeds. -/
def sampleRemote : Remote :=
  ⟨.ok "FORMID123", .ok (), .ok [⟨"Section A", "item7", true⟩]⟩

/-! ## Claims -/

/-- C1: the option mapping for every question item reads `pageBreakIds`
while it is still the empty object, so every lookup is unresolved and every
option emitted by a successful build carries an unresolved (`none`)
`goToSectionId` — the index is populated only after the batch mutation and
re-fetch. -/
theorem C1_option_mapping_sees_empty_index :
    (∀ k, jsLookup [] k = none) ∧
    ∀ (items : List SrcItem) (requests : List CreateItem),
      buildRequests items = .ok requests →
      ∀ r ∈ requests, ∀ cq, r.kind = OutItemKind.question cq →
        ∀ o ∈ cq.options, o.goToSectionId = none := by
  refine ⟨jsLookup_nil, ?_⟩
  intro items requests h r hr cq hk o ho
  rw [buildRequests_eq] at h
  cases hq : qSpec [] items (pbSpec items 0).length with
  | error e => rw [hq] at h; cases h
  | ok qs =>
    rw [hq] at h
    cases h
    rcases List.mem_append.mp hr with hr | hr
    · have hpb := pbSpec_all_pageBreak items 0 r hr
      rw [hpb] at hk
      cases hk
    · exact qSpec_nil_goTo items _ qs hq r hr cq hk o ho

/-- C1 witness: on `sampleItems` the build succeeds and both options of the
emitted question are unresolved. -/
theorem C1_witness :
    buildRequests sampleItems = .ok sampleRequests ∧
    ∀ r ∈ sampleRequests, ∀ cq, r.kind = OutItemKind.question cq →
      ∀ o ∈ cq.options, o.goToSectionId = none :=
  ⟨rfl, C1_option_mapping_sees_empty_index.2 sampleItems sampleRequests rfl⟩

/-- C2: for every accepted FormDescriptor the emitted MutationRequest is all
page-break creations first, then all question creations, each group in
input order, regardless of how the input interleaves them. -/
theorem C2_two_pass_ordering (items : List SrcItem) (requests : List CreateItem)
    (h : buildRequests items = .ok requests) :
    ∃ n, n ≤ requests.length ∧
      (∀ r ∈ requests.take n, r.kind = OutItemKind.pageBreak) ∧
      (∀ r ∈ requests.drop n, ∃ cq, r.kind = OutItemKind.question cq) ∧
      (requests.take n).map (fun r => r.title) =
        (items.filter (fun it => it.pageBreakItem.isSome)).map (fun it => it.title) ∧
      (requests.drop n).map (fun r => r.title) =
        (items.filter (fun it => it.questionItem.isSome)).map (fun it => it.title) := by
  rw [buildRequests_eq] at h
  cases hq : qSpec [] items (pbSpec items 0).length with
  | error e => rw [hq] at h; cases h
  | ok qs =>
    rw [hq] at h
    cases h
    obtain ⟨h1, h2, -⟩ := qSpec_ok_props [] items _ qs hq
    refine ⟨(pbSpec items 0).length, ?_, ?_, ?_, ?_, ?_⟩
    · simp
    · intro r hr
      rw [List.take_left] at hr
      exact pbSpec_all_pageBreak items 0 r hr
    · intro r hr
      rw [List.drop_left] at hr
      obtain ⟨cq, hcq, -⟩ := h1 r hr
      exact ⟨cq, hcq⟩
    · rw [List.take_left]
      exact pbSpec_titles items 0
    · rw [List.drop_left]
      exact h2

/-- C2 witness: on the interleaved `sampleItems` (question before page
break) the page break still comes first. -/
theorem C2_witness :
    buildRequests sampleItems = .ok sampleRequests ∧
    ∃ n, n ≤ sampleRequests.length ∧
      (∀ r ∈ sampleRequests.take n, r.kind = OutItemKind.pageBreak) ∧
      (∀ r ∈ sampleRequests.drop n, ∃ cq, r.kind = OutItemKind.question cq) ∧
      (sampleRequests.take n).map (fun r => r.title) =
        (sampleItems.filter (fun it => it.pageBreakItem.isSome)).map (fun it => it.title) ∧
      (sampleRequests.drop n).map (fun r => r.title) =
        (sampleItems.filter (fun it => it.questionItem.isSome)).map (fun it => it.title) :=
  ⟨rfl, C2_two_pass_ordering sampleItems sampleRequests rfl⟩

/-- C3: every emitted question has its choiceQuestion type forced to
"RADIO" whatever the source type field said, and items that are neither
page breaks nor (truthy) question items are silently dropped: filtering
them out of the input leaves the build output unchanged. -/
theorem C3_radio_forced_and_others_dropped :
    (∀ items : List SrcItem, buildRequests (items.filter keepItem) = buildRequests items) ∧
    ∀ (items : List SrcItem) (requests : List CreateItem),
      buildRequests items = .ok requests →
      ∀ r ∈ requests, ∀ cq, r.kind = OutItemKind.question cq → cq.ctype = "RADIO" := by
  refine ⟨buildRequests_filter, ?_⟩
  intro items requests h r hr cq hk
  rw [buildRequests_eq] at h
  cases hq : qSpec [] items (pbSpec items 0).length with
  | error e => rw [hq] at h; cases h
  | ok qs =>
    rw [hq] at h
    cases h
    rcases List.mem_append.mp hr with hr | hr
    · have hpb := pbSpec_all_pageBreak items 0 r hr
      rw [hpb] at hk
      cases hk
    · obtain ⟨h1, -, -⟩ := qSpec_ok_props [] items _ qs hq
      obtain ⟨cq0, hcq0, hty⟩ := h1 r hr
      rw [hcq0] at hk
      cases hk
      exact hty

/-- C3 witness: the source question of `sampleItems` says "CHECKBOX", yet
the emitted question is "RADIO", and dropping `samplePlain` changes
nothing. -/
theorem C3_witness :
    buildRequests (sampleItems.filter keepItem) = buildRequests sampleItems ∧
    buildRequests sampleItems = .ok sampleRequests ∧
    sampleCQ.ctype = "RADIO" :=
  ⟨C3_radio_forced_and_others_dropped.1 sampleItems, rfl,
   C3_radio_forced_and_others_dropped.2 sampleItems sampleRequests rfl
     ⟨some "Q1", .question sampleCQ, 1⟩ (by simp [sampleRequests]) sampleCQ rfl⟩

/-- C4: a body missing `info` or whose `items` is not an array gets a 400
"bad structure" answer with no remote call at all; a body with `info`
present and `items` an array (even empty) passes validation and never
answers 400. -/
theorem C4_validation_gate (remote : Remote) (body : Option RawBody) :
    ((body = none ∨ ∃ fj, body = some fj ∧ (fj.info = none ∨ fj.items = none)) →
      importForm remote body = invalidOutcome ∧
      (importForm remote body).result.status = 400 ∧
      (importForm remote body).trace = noCalls) ∧
    (∀ fj info items, body = some fj → fj.info = some info → fj.items = some items →
      (importForm remote body).result.status ≠ 400) := by
  constructor
  · rintro (rfl | ⟨fj, rfl, hbad⟩)
    · exact ⟨rfl, rfl, rfl⟩
    · have hinv : importForm remote (some fj) = invalidOutcome := by
        rcases hbad with hinfo | hitems
        · simp [importForm, hinfo]
        · cases hinfo : fj.info with
          | none => simp [importForm, hinfo]
          | some info => simp [importForm, hinfo, hitems]
      refine ⟨hinv, ?_, ?_⟩ <;> rw [hinv] <;> rfl
  · rintro fj info items rfl hinfo hitems
    have h0 : importForm remote (some fj) = importValid remote info items := by
      simp [importForm, hinfo, hitems]
    rw [h0]
    obtain ⟨-, -, hs⟩ := importValid_trace remote info items
    rcases hs with hs | hs <;> omega

/-- C4 witness: a body whose `info` is missing is rejected with no calls,
and a body with `info` and an empty `items` array is not rejected. -/
theorem C4_witness :
    importForm sampleRemote (some ⟨none, some sampleItems⟩) = invalidOutcome ∧
    (importForm sampleRemote (some ⟨some ⟨some "T", none⟩, some []⟩)).result.status ≠ 400 :=
  ⟨((C4_validation_gate sampleRemote (some ⟨none, some sampleItems⟩)).1
      (Or.inr ⟨⟨none, some sampleItems⟩, rfl, Or.inl rfl⟩)).1,
   (C4_validation_gate sampleRemote (some ⟨some ⟨some "T", none⟩, some []⟩)).2
     ⟨some ⟨some "T", none⟩, some []⟩ ⟨some "T", none⟩ [] rfl rfl rfl⟩

/-- C5: with empty `items` the import creates the shell form, skips the
batch-mutation call entirely, and still answers the viewer link of the
fixed shape. -/
theorem C5_empty_items_import (remote : Remote) (info : SrcInfo) (formId : String)
    (fetched : List FetchedItem)
    (hc : remote.createResult = .ok formId)
    (hf : remote.fetchResult = .ok fetched) :
    (importForm remote (some ⟨some info, some []⟩)).trace.createCalled = true ∧
    (importForm remote (some ⟨some info, some []⟩)).trace.batchUpdateCalled = false ∧
    (importForm remote (some ⟨some info, some []⟩)).result =
      ⟨200, "https://docs.google.com/forms/d/" ++ formId ++ "/viewform"⟩ := by
  have hb : buildRequests ([] : List SrcItem) = .ok [] := rfl
  have h0 : importForm remote (some ⟨some info, some []⟩) = importValid remote info [] := rfl
  rw [h0]
  simp [importValid, hc, hf, hb]

/-- C5 witness: the empty import against the all-success oracle. -/
theorem C5_witness :
    (importForm sampleRemote (some ⟨some ⟨some "T", some "T"⟩, some []⟩)).trace.createCalled
      = true ∧
    (importForm sampleRemote (some ⟨some ⟨some "T", some "T"⟩, some []⟩)).trace.batchUpdateCalled
      = false ∧
    (importForm sampleRemote (some ⟨some ⟨some "T", some "T"⟩, some []⟩)).result =
      ⟨200, "https://docs.google.com/forms/d/" ++ "FORMID123" ++ "/viewform"⟩ :=
  C5_empty_items_import sampleRemote ⟨some "T", some "T"⟩ "FORMID123"
    [⟨"Section A", "item7", true⟩] rfl rfl

/-- C6: the create call sends exactly `mkCreateBody info`: each of title and
documentTitle equals the corresponding `info` field when truthy and the
exact string "Untitled Form" when falsy (absent or empty). -/
theorem C6_untitled_defaults (remote : Remote) (info : SrcInfo) (items : List SrcItem) :
    (importForm remote (some ⟨some info, some items⟩)).trace.createBody =
      some (mkCreateBody info) ∧
    ((info.title = none ∨ info.title = some "") →
      (mkCreateBody info).title = "Untitled Form") ∧
    (∀ s, info.title = some s → ¬s = "" → (mkCreateBody info).title = s) ∧
    ((info.documentTitle = none ∨ info.documentTitle = some "") →
      (mkCreateBody info).documentTitle = "Untitled Form") ∧
    (∀ s, info.documentTitle = some s → ¬s = "" → (mkCreateBody info).documentTitle = s) := by
  have h0 : importForm remote (some ⟨some info, some items⟩) = importValid remote info items :=
    rfl
  refine ⟨?_, ?_, ?_, ?_, ?_⟩
  · rw [h0]
    exact (importValid_trace remote info items).2.1
  · rintro (h | h) <;> simp [mkCreateBody, jsStrOr, h]
  · intro s h hne
    simp [mkCreateBody, jsStrOr, h, hne]
  · rintro (h | h) <;> simp [mkCreateBody, jsStrOr, h]
  · intro s h hne
    simp [mkCreateBody, jsStrOr, h, hne]

/-- An `info` with a falsy (empty) title and a truthy documentTitle. -/
def sampleInfo : SrcInfo := ⟨some "", some "My Doc"⟩

/-- C6 witness: empty title falls back to "Untitled Form"; truthy
documentTitle is kept. -/
theorem C6_witness :
    (importForm sampleRemote (some ⟨some sampleInfo, some []⟩)).trace.createBody =
      some (mkCreateBody sampleInfo) ∧
    (mkCreateBody sampleInfo).title = "Untitled Form" ∧
    (mkCreateBody sampleInfo).documentTitle = "My Doc" :=
  ⟨(C6_untitled_defaults sampleRemote sampleInfo []).1,
   (C6_untitled_defaults sampleRemote sampleInfo []).2.1 (Or.inr rfl),
   (C6_untitled_defaults sampleRemote sampleInfo []).2.2.2.2 "My Doc" rfl (by decide)⟩

/-- C7: the gate attempts exactly one refresh call when the stored
credential's expiry instant is ≤ now (proceeding with the persisted new
credential on success, redirecting on failure) and zero refresh calls when
expiry > now (proceeding immediately). -/
theorem C7_refresh_exactly_when_expired (token : Credential) (now : Int)
    (refreshResult : Except Unit Credential) :
    (token.expiry_date ≤ now →
      (ensureAuthenticated (some token) now refreshResult).refreshCalls = 1 ∧
      (∀ newTokens, refreshResult = .ok newTokens →
        ensureAuthenticated (some token) now refreshResult =
          ⟨1, .proceed, some newTokens⟩) ∧
      (∀ e, refreshResult = .error e →
        ensureAuthenticated (some token) now refreshResult =
          ⟨1, .redirectAuth, none⟩)) ∧
    (now < token.expiry_date →
      ensureAuthenticated (some token) now refreshResult = ⟨0, .proceed, none⟩) := by
  constructor
  · intro hexp
    refine ⟨?_, ?_, ?_⟩
    · simp only [ensureAuthenticated, if_pos hexp]
      cases refreshResult <;> rfl
    · intro newTokens hr
      simp only [ensureAuthenticated, if_pos hexp, hr]
    · intro e hr
      simp only [ensureAuthenticated, if_pos hexp, hr]
  · intro hlt
    simp only [ensureAuthenticated, if_neg (not_le.mpr hlt)]

/-- C7 witness: expiry 5 ≤ now 10 gives one refresh and the refreshed
credential is persisted; expiry 20 > now 10 gives zero refreshes. -/
theorem C7_witness :
    (ensureAuthenticated (some ⟨"a", "r", 5⟩) 10 (.ok ⟨"a2", "r2", 99⟩)).refreshCalls = 1 ∧
    ensureAuthenticated (some ⟨"a", "r", 5⟩) 10 (.ok ⟨"a2", "r2", 99⟩) =
      ⟨1, .proceed, some ⟨"a2", "r2", 99⟩⟩ ∧
    ensureAuthenticated (some ⟨"a", "r", 20⟩) 10 (.ok ⟨"a2", "r2", 99⟩) =
      ⟨0, .proceed, none⟩ :=
  ⟨((C7_refresh_exactly_when_expired ⟨"a", "r", 5⟩ 10 (.ok ⟨"a2", "r2", 99⟩)).1
      (by decide)).1,
   ((C7_refresh_exactly_when_expired ⟨"a", "r", 5⟩ 10 (.ok ⟨"a2", "r2", 99⟩)).1
      (by decide)).2.1 ⟨"a2", "r2", 99⟩ rfl,
   (C7_refresh_exactly_when_expired ⟨"a", "r", 20⟩ 10 (.ok ⟨"a2", "r2", 99⟩)).2
      (by decide)⟩

/-- C8: with no stored credential a protected request is answered with the
redirect to /auth, the handler never runs, and no refresh is attempted. -/
theorem C8_no_credential_redirects (now : Int) (refreshResult : Except Unit Credential)
    (handler : Unit → HttpResult) :
    runProtected none now refreshResult handler = (⟨302, "/auth"⟩, false) ∧
    (ensureAuthenticated none now refreshResult).refreshCalls = 0 :=
  ⟨rfl, rfl⟩

/-- C9: within one import the emitted operations carry insertion indices
equal to their position in the built sequence: 0, 1, ..., n-1 in append
order. -/
theorem C9_indices_are_positions (items : List SrcItem) (requests : List CreateItem)
    (h : buildRequests items = .ok requests) :
    requests.map (fun r => r.index) = List.range requests.length := by
  rw [buildRequests_eq] at h
  cases hq : qSpec [] items (pbSpec items 0).length with
  | error e => rw [hq] at h; cases h
  | ok qs =>
    rw [hq] at h
    cases h
    obtain ⟨-, -, h3⟩ := qSpec_ok_props [] items _ qs hq
    rw [List.map_append, pbSpec_indices items 0, h3, List.range_eq_range',
        List.length_append]
    have happ := range'_app (pbSpec items 0).length 0 qs.length
    simpa using happ

/-- C9 witness: the two requests built from `sampleItems` carry indices
0 and 1. -/
theorem C9_witness :
    buildRequests sampleItems = .ok sampleRequests ∧
    sampleRequests.map (fun r => r.index) = List.range sampleRequests.length :=
  ⟨rfl, C9_indices_are_positions sampleItems sampleRequests rfl⟩

/-- A question item whose `question` has no `choiceQuestion`: mapping its
options dereferences a missing field. -/
def badQuestion : SrcItem := ⟨some "Q bad", none, some ⟨⟨none⟩⟩⟩

/-- A structurally valid body containing `badQuestion`. -/
def badBody : RawBody := ⟨some ⟨some "T", some "T"⟩, some [samplePageBreak, badQuestion]⟩

/-- C10: a structurally valid body holding a question without a
choiceQuestion passes validation, the shell form is created, and then the
option mapping aborts the import into the generic 500 "Error creating form"
branch — the question is not skipped and the import does not succeed. -/
theorem C10_missing_choiceQuestion_aborts (remote : Remote) (formId : String)
    (hc : remote.createResult = .ok formId) :
    (importForm remote (some badBody)).result = ⟨500, "Error creating form"⟩ ∧
    (importForm remote (some badBody)).trace.createCalled = true ∧
    (importForm remote (some badBody)).trace.batchUpdateCalled = false := by
  have hb : buildRequests [samplePageBreak, badQuestion] = .error () := rfl
  have h0 : importForm remote (some badBody) =
      importValid remote ⟨some "T", some "T"⟩ [samplePageBreak, badQuestion] := rfl
  rw [h0]
  simp [importValid, hc, hb]

/-- C10 witness: against the all-success oracle the bad body still yields
the generic 500 after the create call. -/
theorem C10_witness :
    (importForm sampleRemote (some badBody)).result = ⟨500, "Error creating form"⟩ ∧
    (importForm sampleRemote (some badBody)).trace.createCalled = true ∧
    (importForm sampleRemote (some badBody)).trace.batchUpdateCalled = false :=
  C10_missing_choiceQuestion_aborts sampleRemote "FORMID123" rfl

end FormsBackend
